import Mathlib

/-
Verification development for the AirSpy source block
(lib/airspy/airspy_source_c.cc of gr-osmosdr).

The concurrency core is a fixed-capacity sample FIFO (a boost
circular_buffer of gr_complex, capacity 5000000) fed by the device
callback `airspy_rx_callback` (producer) and drained by `work`
(consumer).  The control surface consists of frequency / gain /
sample-rate setters that issue device commands and cache effective
values.

Modelling conventions:
  - `gr_complex` float components are modelled as rationals (exact
    arithmetic standing in for IEEE doubles/floats on the values the
    claims quantify over);
  - the raw interleaved sample memory handed to the callback is a
    function from float index to value;
  - device interaction is modelled by a response oracle
    `resp : DevCmd → Bool` (true = AIRSPY_SUCCESS) together with an
    explicit trace of the commands issued;
  - thrown std::runtime_error exceptions become `Except.error`.
-/

set_option autoImplicit false

namespace Airspy

/-- One complex sample (gr_complex): real and imaginary parts. -/
structure GrComplex where
  re : ℚ
  im : ℚ
deriving DecidableEq

/-- The sample FIFO `_fifo`: a circular buffer of `gr_complex` with a fixed
capacity.  The producer only ever pushes into the free space
(`to_copy ≤ capacity - size`), so the ring never wraps over unread data
and is faithfully modelled as a capacity-bounded list with the oldest
sample at the head. -/
structure Fifo where
  capacity : ℕ
  buf : List GrComplex
deriving DecidableEq

/-- `_fifo->size()` -/
def Fifo.size (f : Fifo) : ℕ := f.buf.length

/-- A freshly allocated FIFO of capacity `c`. -/
def emptyFifo (c : ℕ) : Fifo := ⟨c, []⟩

/-- The capacity used in the constructor: `new boost::circular_buffer<gr_complex>(5000000)`. -/
def fifoCapacity : ℕ := 5000000

/-- The i-th complex sample decoded from the raw interleaved float buffer:
the loop body reads `gr_complex( *sample, *(sample+1) )` and advances the
pointer by 2 floats per sample, so sample i is (float[2i], float[2i+1]). -/
def interleavedSample (samples : ℕ → ℚ) (i : ℕ) : GrComplex :=
  ⟨samples (2 * i), samples (2 * i + 1)⟩

/-- Everything `airspy_source_c::airspy_rx_callback` does that is visible
to the rest of the system: the new FIFO contents, the number of samples
copied, whether `_samp_avail.notify_one()` was called, and whether an
overrun was reported (the "O" diagnostic on stderr). -/
structure RxCallbackResult where
  fifo : Fifo
  to_copy : ℕ
  notified : Bool
  overrun : Bool

/-- `airspy_source_c::airspy_rx_callback(samples, sample_count)`:
under `_fifo_lock`, computes `n_avail = capacity - size`,
`to_copy = min(n_avail, num_samples)`, pushes the first `to_copy`
decoded samples, then notifies one waiter iff `to_copy > 0` and
reports an overrun iff `to_copy < num_samples`. -/
def airspy_rx_callback (f : Fifo) (samples : ℕ → ℚ) (sample_count : ℕ) :
    RxCallbackResult :=
  let n_avail := f.capacity - f.size
  let to_copy := if n_avail < sample_count then n_avail else sample_count
  { fifo := ⟨f.capacity, f.buf ++ (List.range to_copy).map (interleavedSample samples)⟩
    to_copy := to_copy
    notified := to_copy != 0
    overrun := decide (to_copy < sample_count) }

/-- The drain loop at the end of `work`: `noutput_items` times,
`out[i] = _fifo->at(0); _fifo->pop_front();`.  Returns the emitted block
and the remaining FIFO. -/
def popBlock (f : Fifo) (n : ℕ) : List GrComplex × Fifo :=
  (f.buf.take n, ⟨f.capacity, f.buf.drop n⟩)

/-- One callback invocation's raw input: the interleaved float memory and
the sample count (`airspy_transfer::samples`, `airspy_transfer::sample_count`). -/
def RawBatch : Type := (ℕ → ℚ) × ℕ

/-- The complex samples a batch decodes to: sample i is
(float[2i], float[2i+1]), for i < sample_count. -/
def decodedBatch (b : RawBatch) : List GrComplex :=
  (List.range b.2).map (interleavedSample b.1)

/-- A sequence of callback invocations applied to the FIFO in order. -/
def pushBatches (f : Fifo) : List RawBatch → Fifo
  | [] => f
  | b :: bs => pushBatches (airspy_rx_callback f b.1 b.2).fifo bs

/-- The result of a `work` call. `workDone` is the WORK_DONE return,
`produced out` is a successful return of `out.length` output items. -/
inductive WorkResult
  | workDone
  | produced (out : List GrComplex)
deriving DecidableEq

/-- The `running` test at the top of `work`: false when the handle is null,
otherwise the result of a live `airspy_is_streaming(_dev)` query made on
this very call (the streaming flag is never cached for this decision). -/
def workRunning (dev devStreaming : Bool) : Bool := dev && devStreaming

/-- The wait loop in `work`:

    while (n_samples_avail < noutput_items) {
      _samp_avail.wait(lock);
      n_samples_avail = _fifo->size();
    }

`f` is the FIFO state read before the loop; `wakeups` lists the FIFO state
observed after each successive `_samp_avail` wakeup.  The loop guard
inspects only the fill level.  `some g` means the loop exited with
observed state `g`; `none` means the schedule was exhausted with the guard
still true — the consumer thread is still blocked in `wait`. -/
def waitLoop (n : ℕ) (f : Fifo) : List Fifo → Option Fifo
  | [] => if n ≤ f.size then some f else none
  | g :: gs => if n ≤ f.size then some f else waitLoop n g gs

/-- `airspy_source_c::work(noutput_items, ...)`: if the live streaming query
says not running, return WORK_DONE immediately; otherwise wait until the
FIFO holds at least `n` samples (per `waitLoop`), then drain exactly `n`.
`none` models the consumer never returning (still blocked in the wait). -/
def work (dev devStreaming : Bool) (f : Fifo) (wakeups : List Fifo) (n : ℕ) :
    Option (WorkResult × Fifo) :=
  if workRunning dev devStreaming = false then some (WorkResult.workDone, f)
  else
    match waitLoop n f wakeups with
    | none => none
    | some g => some (WorkResult.produced (popBlock g n).1, (popBlock g n).2)

/-- The two gain policies selectable via constructor args. -/
inductive GainPolicy
  | linearity
  | sensitivity
deriving DecidableEq

/-- The only callback function ever registered: `_airspy_rx_callback`. -/
inductive RxCallbackFn
  | airspy_rx_cb
deriving DecidableEq

/-- The device commands the modelled member functions can issue. -/
inductive DevCmd
  | setSamplerate (idx : ℕ)
  | setFreq (hz : ℕ)
  | setLnaAgc (v : ℕ)
  | setMixerAgc (v : ℕ)
  | setLnaGain (v : ℕ)
  | setMixerGain (v : ℕ)
  | setVgaGain (v : ℕ)
  | setLinearityGain (v : ℕ)
  | setSensitivityGain (v : ℕ)
  | startRx (cb : RxCallbackFn) (ctx : ℕ)
  | stopRx
deriving DecidableEq

/-- The exceptions the modelled member functions can throw:
the "Unsupported samplerate" runtime_error, and the AIRSPY_THROW_ON_ERROR
macro naming the failed device function. -/
inductive AirspyError
  | unsupportedValue (rate : ℚ)
  | deviceRejected (func : String)
deriving DecidableEq

/-- The cached member fields of `airspy_source_c` the claims touch, plus
`dev` (whether `_dev` is non-null) and `self` (the numeric value of the
`(void *)this` context pointer). -/
structure AirspyState where
  dev : Bool
  self : ℕ
  sample_rates : List (ℚ × ℕ)
  sample_rate : ℚ
  center_freq : ℚ
  freq_corr : ℚ
  auto_gain : Bool
  gain_policy : GainPolicy
  gain : ℚ
  lna_gain : ℚ
  mix_gain : ℚ
  vga_gain : ℚ
deriving DecidableEq

/-- Outcome of one member-function call: the returned value (or the thrown
exception), the state of the cached fields afterwards, and the device
commands issued, in order. -/
structure SetResult (α : Type) where
  result : Except AirspyError α
  state : AirspyState
  cmds : List DevCmd

/-- C++ conversion of a nonnegative double to uint64_t: truncation toward
zero (the frequencies involved are far below 2^64). -/
def toU64 (q : ℚ) : ℕ := (⌊q⌋).toNat

/-- C++ conversion of a nonnegative in-range double to uint8_t: truncation
toward zero (the gain values involved are at most 21). -/
def toU8 (q : ℚ) : ℕ := (⌊q⌋).toNat % 256

/-- `APPLY_PPM_CORR(val, ppm) = (val) * (1.0 + (ppm) * 0.000001)` -/
def APPLY_PPM_CORR (val ppm : ℚ) : ℚ := val * (1 + ppm * (1 / 1000000))

/-- Modelled from the spec: `osmosdr::gain_range_t::clip(value, true)` lives
in lib/ranges.cc, which is outside src/; per the spec each gain setter
"validates/clips the requested value against a discovered range", so the
request is clamped into [lo, hi] and rounded to the nearest step. -/
def gainRangeClip (lo hi step g : ℚ) : ℚ :=
  let c := max lo (min hi g)
  if step = 0 then c else lo + step * ((round ((c - lo) / step) : ℤ) : ℚ)

/-- The search loop in `set_sample_rate`: scan `_sample_rates` for entries
whose rate equals the request; `found_supported_rate` starts false and
`samp_rate_index` starts 0; the last matching entry's device index wins. -/
def findRate (l : List (ℚ × ℕ)) (rate : ℚ) : Bool × ℕ :=
  l.foldl (fun acc p => if p.1 = rate then (true, p.2) else acc) (false, 0)

/-- `airspy_source_c::get_sample_rate` -/
def get_sample_rate (st : AirspyState) : ℚ := st.sample_rate

/-- `airspy_source_c::get_center_freq` -/
def get_center_freq (st : AirspyState) : ℚ := st.center_freq

/-- `airspy_source_c::get_freq_corr` -/
def get_freq_corr (st : AirspyState) : ℚ := st.freq_corr

/-- `airspy_source_c::get_gain_mode` -/
def get_gain_mode (st : AirspyState) : Bool := st.auto_gain

/-- `airspy_source_c::set_sample_rate(rate)`: only with a non-null `_dev`,
look the rate up in the discovered list; no match throws the
"Unsupported samplerate" error before any device command; a match issues
`airspy_set_samplerate` with the matched index and on success caches the
rate.  Returns `get_sample_rate()`. -/
def set_sample_rate (resp : DevCmd → Bool) (st : AirspyState) (rate : ℚ) :
    SetResult ℚ :=
  if st.dev then
    let fr := findRate st.sample_rates rate
    if fr.1 = false then
      { result := .error (.unsupportedValue rate), state := st, cmds := [] }
    else
      let cmd := DevCmd.setSamplerate fr.2
      if resp cmd then
        { result := .ok rate, state := { st with sample_rate := rate }, cmds := [cmd] }
      else
        { result := .error (.deviceRejected "airspy_set_samplerate"), state := st,
          cmds := [cmd] }
  else
    { result := .ok st.sample_rate, state := st, cmds := [] }

/-- `airspy_source_c::set_center_freq(freq, chan)`: only with a non-null
`_dev`, issue `airspy_set_freq` for the ppm-corrected frequency cast to
uint64_t; on success cache the uncorrected frequency.  Returns
`get_center_freq()`. -/
def set_center_freq (resp : DevCmd → Bool) (st : AirspyState) (freq : ℚ) :
    SetResult ℚ :=
  if st.dev then
    let corr_freq := APPLY_PPM_CORR freq st.freq_corr
    let cmd := DevCmd.setFreq (toU64 corr_freq)
    if resp cmd then
      { result := .ok freq, state := { st with center_freq := freq }, cmds := [cmd] }
    else
      { result := .error (.deviceRejected "airspy_set_freq"), state := st, cmds := [cmd] }
  else
    { result := .ok st.center_freq, state := st, cmds := [] }

/-- `airspy_source_c::set_freq_corr(ppm, chan)`: store the new correction,
then re-apply the last requested (uncorrected) center frequency.  Returns
`get_freq_corr()`. -/
def set_freq_corr (resp : DevCmd → Bool) (st : AirspyState) (ppm : ℚ) :
    SetResult ℚ :=
  let st1 : AirspyState := { st with freq_corr := ppm }
  let r := set_center_freq resp st1 st1.center_freq
  match r.result with
  | .ok _ => { result := .ok r.state.freq_corr, state := r.state, cmds := r.cmds }
  | .error e => { result := .error e, state := r.state, cmds := r.cmds }

/-- `airspy_source_c::set_lna_gain(gain, chan)`: with a non-null `_dev`,
clip against the LNA range (0..15 step 1), issue `airspy_set_lna_gain`,
cache on success.  Returns `_lna_gain`. -/
def set_lna_gain (resp : DevCmd → Bool) (st : AirspyState) (gain : ℚ) :
    SetResult ℚ :=
  if st.dev then
    let clip_gain := gainRangeClip 0 15 1 gain
    let cmd := DevCmd.setLnaGain (toU8 clip_gain)
    if resp cmd then
      { result := .ok clip_gain, state := { st with lna_gain := clip_gain }, cmds := [cmd] }
    else
      { result := .error (.deviceRejected "airspy_set_lna_gain"), state := st, cmds := [cmd] }
  else
    { result := .ok st.lna_gain, state := st, cmds := [] }

/-- `airspy_source_c::set_mix_gain(gain, chan)`: same shape with
`airspy_set_mixer_gain` and the MIX range (0..15 step 1). -/
def set_mix_gain (resp : DevCmd → Bool) (st : AirspyState) (gain : ℚ) :
    SetResult ℚ :=
  if st.dev then
    let clip_gain := gainRangeClip 0 15 1 gain
    let cmd := DevCmd.setMixerGain (toU8 clip_gain)
    if resp cmd then
      { result := .ok clip_gain, state := { st with mix_gain := clip_gain }, cmds := [cmd] }
    else
      { result := .error (.deviceRejected "airspy_set_mixer_gain"), state := st, cmds := [cmd] }
  else
    { result := .ok st.mix_gain, state := st, cmds := [] }

/-- `airspy_source_c::set_if_gain(gain, chan)`: same shape with
`airspy_set_vga_gain`; the source looks up the "MIX" range here, which is
the same 0..15 step 1. -/
def set_if_gain (resp : DevCmd → Bool) (st : AirspyState) (gain : ℚ) :
    SetResult ℚ :=
  if st.dev then
    let clip_gain := gainRangeClip 0 15 1 gain
    let cmd := DevCmd.setVgaGain (toU8 clip_gain)
    if resp cmd then
      { result := .ok clip_gain, state := { st with vga_gain := clip_gain }, cmds := [cmd] }
    else
      { result := .error (.deviceRejected "airspy_set_vga_gain"), state := st, cmds := [cmd] }
  else
    { result := .ok st.vga_gain, state := st, cmds := [] }

/-- `airspy_source_c::set_gain(gain, chan)`: with a non-null `_dev`, clip
against the overall range (0..21 step 1) and route through the
`airspy_set_linearity_gain` or `airspy_set_sensitivity_gain` family as
selected by `_gain_policy`; cache on success.  Returns `_gain`. -/
def set_gain (resp : DevCmd → Bool) (st : AirspyState) (gain : ℚ) :
    SetResult ℚ :=
  if st.dev then
    let clip_gain := gainRangeClip 0 21 1 gain
    match st.gain_policy with
    | .linearity =>
      let cmd := DevCmd.setLinearityGain (toU8 clip_gain)
      if resp cmd then
        { result := .ok clip_gain, state := { st with gain := clip_gain }, cmds := [cmd] }
      else
        { result := .error (.deviceRejected "airspy_set_linearity_gain"), state := st,
          cmds := [cmd] }
    | .sensitivity =>
      let cmd := DevCmd.setSensitivityGain (toU8 clip_gain)
      if resp cmd then
        { result := .ok clip_gain, state := { st with gain := clip_gain }, cmds := [cmd] }
      else
        { result := .error (.deviceRejected "airspy_set_sensitivity_gain"), state := st,
          cmds := [cmd] }
  else
    { result := .ok st.gain, state := st, cmds := [] }

/-- `airspy_source_c::set_gain_mode(automatic, chan)`: automatic = enable
both AGC loops (LNA and mixer); manual = disable both AGC loops, then
re-apply the cached `_lna_gain` and `_mix_gain` through the stage setters
(the IF/VGA stage is not touched).  The AGC calls' return codes are
ignored.  Finally `_auto_gain = automatic`; returns `get_gain_mode()`. -/
def set_gain_mode (resp : DevCmd → Bool) (st : AirspyState) (automatic : Bool) :
    SetResult Bool :=
  if automatic then
    { result := .ok true
      state := { st with auto_gain := true }
      cmds := [DevCmd.setLnaAgc 1, DevCmd.setMixerAgc 1] }
  else
    let r1 := set_lna_gain resp st st.lna_gain
    match r1.result with
    | .error e =>
      { result := .error e, state := r1.state
        cmds := [DevCmd.setLnaAgc 0, DevCmd.setMixerAgc 0] ++ r1.cmds }
    | .ok _ =>
      let r2 := set_mix_gain resp r1.state r1.state.mix_gain
      match r2.result with
      | .error e =>
        { result := .error e, state := r2.state
          cmds := [DevCmd.setLnaAgc 0, DevCmd.setMixerAgc 0] ++ r1.cmds ++ r2.cmds }
      | .ok _ =>
        { result := .ok false
          state := { r2.state with auto_gain := false }
          cmds := [DevCmd.setLnaAgc 0, DevCmd.setMixerAgc 0] ++ r1.cmds ++ r2.cmds }

/-- `airspy_source_c::start()`: false with a null `_dev`; otherwise issue
`airspy_start_rx(_dev, _airspy_rx_callback, (void *)this)` and return true
on AIRSPY_SUCCESS, false (no throw) otherwise. -/
def start (resp : DevCmd → Bool) (st : AirspyState) : SetResult Bool :=
  if st.dev then
    let cmd := DevCmd.startRx RxCallbackFn.airspy_rx_cb st.self
    if resp cmd then
      { result := .ok true, state := st, cmds := [cmd] }
    else
      { result := .ok false, state := st, cmds := [cmd] }
  else
    { result := .ok false, state := st, cmds := [] }

/-- `airspy_source_c::stop()`: false with a null `_dev`; otherwise issue
`airspy_stop_rx(_dev)` and return true on AIRSPY_SUCCESS, false (no throw)
otherwise.  Note: no notification of `_samp_avail` anywhere. -/
def stop (resp : DevCmd → Bool) (st : AirspyState) : SetResult Bool :=
  if st.dev then
    if resp DevCmd.stopRx then
      { result := .ok true, state := st, cmds := [DevCmd.stopRx] }
    else
      { result := .ok false, state := st, cmds := [DevCmd.stopRx] }
  else
    { result := .ok false, state := st, cmds := [] }

/-- A concrete raw sample memory: float index i holds the value i. -/
def exampleSamples : ℕ → ℚ := fun i => (i : ℚ)

/-- A second concrete raw sample memory. -/
def exampleSamples2 : ℕ → ℚ := fun i => (i : ℚ) + 100

/-- A concrete FIFO holding three samples, capacity 5. -/
def exampleFifo : Fifo := ⟨5, [⟨1, 2⟩, ⟨3, 4⟩, ⟨5, 6⟩]⟩

/-- A concrete open-device state for witnesses. -/
def exampleState : AirspyState :=
  { dev := true
    self := 1
    sample_rates := [(2500000, 1), (10000000, 0)]
    sample_rate := 2500000
    center_freq := 100000000
    freq_corr := 0
    auto_gain := false
    gain_policy := .linearity
    gain := 10
    lna_gain := 3
    mix_gain := 7
    vga_gain := 9 }

/-- The same state with a null device handle. -/
def exampleStateClosed : AirspyState := { exampleState with dev := false }

/-- A device layer that accepts every command. -/
def allOk : DevCmd → Bool := fun _ => true

end Airspy

namespace Airspy

theorem rx_callback_to_copy_eq_min (f : Fifo) (samples : ℕ → ℚ) (k : ℕ) :
    (airspy_rx_callback f samples k).to_copy = min (f.capacity - f.size) k := by
  simp only [airspy_rx_callback]
  split <;> omega

theorem rx_callback_buf (f : Fifo) (samples : ℕ → ℚ) (k : ℕ) :
    (airspy_rx_callback f samples k).fifo.buf =
      f.buf ++ (List.range (airspy_rx_callback f samples k).to_copy).map
        (interleavedSample samples) := rfl

theorem rx_callback_capacity (f : Fifo) (samples : ℕ → ℚ) (k : ℕ) :
    (airspy_rx_callback f samples k).fifo.capacity = f.capacity := rfl

theorem rx_callback_size (f : Fifo) (samples : ℕ → ℚ) (k : ℕ) :
    (airspy_rx_callback f samples k).fifo.size =
      f.size + (airspy_rx_callback f samples k).to_copy := by
  simp [airspy_rx_callback, Fifo.size]

theorem rx_callback_overrun_iff (f : Fifo) (samples : ℕ → ℚ) (k : ℕ) :
    (airspy_rx_callback f samples k).overrun = true ↔
      (airspy_rx_callback f samples k).to_copy < k := by
  simp [airspy_rx_callback]

/-- Claim C1: for every push of a batch of k samples when the buffer holds
s samples and has capacity C (s ≤ C), the rx callback accepts exactly
min(C - s, k) leading samples of the batch in order, drops the remainder,
reports an overrun iff the accepted count is less than k, and the
resulting size never exceeds C. -/
theorem claim_C1_push_batch_truncation (f : Fifo) (samples : ℕ → ℚ) (k : ℕ)
    (hwf : f.size ≤ f.capacity) :
    (airspy_rx_callback f samples k).to_copy = min (f.capacity - f.size) k ∧
    (airspy_rx_callback f samples k).fifo.buf =
      f.buf ++ (List.range (min (f.capacity - f.size) k)).map (interleavedSample samples) ∧
    ((airspy_rx_callback f samples k).overrun = true ↔
      (airspy_rx_callback f samples k).to_copy < k) ∧
    (airspy_rx_callback f samples k).fifo.size ≤ f.capacity := by
  refine ⟨rx_callback_to_copy_eq_min f samples k, ?_, rx_callback_overrun_iff f samples k, ?_⟩
  · rw [rx_callback_buf, rx_callback_to_copy_eq_min]
  · rw [rx_callback_size, rx_callback_to_copy_eq_min]
    omega

/-- Witness for C1: pushing 15 samples into an empty buffer of capacity 10
accepts the first 10, reports an overrun, and leaves size() = 10. -/
theorem claim_C1_witness :
    ((emptyFifo 10).size ≤ (emptyFifo 10).capacity ∧
      ((airspy_rx_callback (emptyFifo 10) exampleSamples 15).to_copy =
          min ((emptyFifo 10).capacity - (emptyFifo 10).size) 15 ∧
        (airspy_rx_callback (emptyFifo 10) exampleSamples 15).fifo.buf =
          (emptyFifo 10).buf ++
            (List.range (min ((emptyFifo 10).capacity - (emptyFifo 10).size) 15)).map
              (interleavedSample exampleSamples) ∧
        ((airspy_rx_callback (emptyFifo 10) exampleSamples 15).overrun = true ↔
          (airspy_rx_callback (emptyFifo 10) exampleSamples 15).to_copy < 15) ∧
        (airspy_rx_callback (emptyFifo 10) exampleSamples 15).fifo.size ≤
          (emptyFifo 10).capacity)) ∧
    (airspy_rx_callback (emptyFifo 10) exampleSamples 15).to_copy = 10 ∧
    (airspy_rx_callback (emptyFifo 10) exampleSamples 15).fifo.size = 10 ∧
    (airspy_rx_callback (emptyFifo 10) exampleSamples 15).overrun = true :=
  ⟨⟨by decide, claim_C1_push_batch_truncation (emptyFifo 10) exampleSamples 15 (by decide)⟩,
    by decide, by decide, by decide⟩

theorem rx_callback_buf_of_fits (f : Fifo) (b : RawBatch)
    (h : f.size + b.2 ≤ f.capacity) :
    (airspy_rx_callback f b.1 b.2).fifo.buf = f.buf ++ decodedBatch b := by
  have hcopy : (airspy_rx_callback f b.1 b.2).to_copy = b.2 := by
    rw [rx_callback_to_copy_eq_min]; omega
  rw [rx_callback_buf, hcopy, decodedBatch]

theorem pushBatches_buf (bs : List RawBatch) (f : Fifo)
    (h : f.size + (bs.map Prod.snd).sum ≤ f.capacity) :
    (pushBatches f bs).buf = f.buf ++ (bs.map decodedBatch).flatten ∧
    (pushBatches f bs).capacity = f.capacity := by
  induction bs generalizing f with
  | nil => simp [pushBatches]
  | cons b bs ih =>
    simp only [List.map_cons, List.sum_cons] at h
    have hfit : f.size + b.2 ≤ f.capacity := by omega
    have hbuf := rx_callback_buf_of_fits f b hfit
    have hcap := rx_callback_capacity f b.1 b.2
    have hsize : (airspy_rx_callback f b.1 b.2).fifo.size = f.size + b.2 := by
      rw [rx_callback_size, rx_callback_to_copy_eq_min]; omega
    have hrec := ih (airspy_rx_callback f b.1 b.2).fifo (by rw [hsize, hcap]; omega)
    constructor
    · simp only [pushBatches, hrec.1, hbuf, List.map_cons, List.flatten_cons,
        List.append_assoc]
    · simp only [pushBatches, hrec.2, hcap]

/-- Claim C2: for every sequence of callback pushes whose total sample count
is at most the capacity C, starting from the empty FIFO, popping that total
count afterwards returns exactly the pushed samples in push order (FIFO, no
reordering across batches), each decoded as the (I, Q) pair of two
consecutive interleaved floats, and drains the buffer completely. -/
theorem claim_C2_fifo_order_preserved (C : ℕ) (bs : List RawBatch)
    (htotal : (bs.map Prod.snd).sum ≤ C) :
    (popBlock (pushBatches (emptyFifo C) bs) ((bs.map Prod.snd).sum)).1 =
      (bs.map decodedBatch).flatten ∧
    (popBlock (pushBatches (emptyFifo C) bs) ((bs.map Prod.snd).sum)).2.buf = [] := by
  have h := pushBatches_buf bs (emptyFifo C) (by simpa [emptyFifo, Fifo.size] using htotal)
  have hlen : ((bs.map decodedBatch).flatten).length = (bs.map Prod.snd).sum := by
    rw [List.length_flatten]
    simp only [List.map_map]
    congr 1
    apply List.map_congr_left
    intro b _
    simp [decodedBatch, Function.comp]
  have hbuf : (pushBatches (emptyFifo C) bs).buf = (bs.map decodedBatch).flatten := by
    rw [h.1]; simp [emptyFifo]
  constructor
  · simp only [popBlock, hbuf]
    rw [← hlen, List.take_length]
  · simp only [popBlock, hbuf]
    rw [← hlen, List.drop_length]

/-- Witness for C2: two concrete batches of 2 and 1 samples into a FIFO of
capacity 5. -/
theorem claim_C2_witness :
    (([((exampleSamples, 2) : RawBatch), (exampleSamples2, 1)].map Prod.snd).sum ≤ 5) ∧
    ((popBlock (pushBatches (emptyFifo 5) [(exampleSamples, 2), (exampleSamples2, 1)])
        (([((exampleSamples, 2) : RawBatch), (exampleSamples2, 1)].map Prod.snd).sum)).1 =
      (([((exampleSamples, 2) : RawBatch), (exampleSamples2, 1)].map decodedBatch).flatten) ∧
    (popBlock (pushBatches (emptyFifo 5) [(exampleSamples, 2), (exampleSamples2, 1)])
        (([((exampleSamples, 2) : RawBatch), (exampleSamples2, 1)].map Prod.snd).sum)).2.buf
      = []) :=
  ⟨by decide,
    claim_C2_fifo_order_preserved 5 [(exampleSamples, 2), (exampleSamples2, 1)] (by decide)⟩

theorem waitLoop_size (n : ℕ) (f g : Fifo) (ws : List Fifo)
    (h : waitLoop n f ws = some g) : n ≤ g.size := by
  induction ws generalizing f with
  | nil =>
    simp only [waitLoop] at h
    split at h
    · cases h; assumption
    · cases h
  | cons w ws ih =>
    simp only [waitLoop] at h
    split at h
    · cases h; assumption
    · exact ih w h

/-- Claim C3: for every n not exceeding the capacity, a `work` call made
while the session is streaming waits until the observed FIFO size reaches
n (the loop exits at the first observed state g with size ≥ n), then
returns exactly the first n buffered samples in FIFO order and removes
them, leaving exactly size - n samples behind in their original order. -/
theorem claim_C3_pop_block_fifo (f g : Fifo) (wakeups : List Fifo) (n : ℕ)
    (hcap : n ≤ f.capacity) (hwait : waitLoop n f wakeups = some g) :
    n ≤ g.size ∧
    work true true f wakeups n =
      some (WorkResult.produced (g.buf.take n), ⟨g.capacity, g.buf.drop n⟩) ∧
    (g.buf.take n).length = n ∧
    g.buf.take n ++ g.buf.drop n = g.buf ∧
    (g.buf.drop n).length = g.size - n := by
  have hsz := waitLoop_size n f g wakeups hwait
  refine ⟨hsz, ?_, ?_, List.take_append_drop n g.buf, ?_⟩
  · simp [work, workRunning, hwait, popBlock]
  · simpa [Fifo.size] using hsz
  · simp [Fifo.size]

/-- Witness for C3: three buffered samples, request 2, no extra wakeups
needed. -/
theorem claim_C3_witness :
    (2 ≤ exampleFifo.capacity ∧ waitLoop 2 exampleFifo [] = some exampleFifo) ∧
    (2 ≤ exampleFifo.size ∧
      work true true exampleFifo [] 2 =
        some (WorkResult.produced (exampleFifo.buf.take 2),
          ⟨exampleFifo.capacity, exampleFifo.buf.drop 2⟩) ∧
      (exampleFifo.buf.take 2).length = 2 ∧
      exampleFifo.buf.take 2 ++ exampleFifo.buf.drop 2 = exampleFifo.buf ∧
      (exampleFifo.buf.drop 2).length = exampleFifo.size - 2) :=
  ⟨⟨by decide, by decide⟩,
    claim_C3_pop_block_fifo exampleFifo exampleFifo [] 2 (by decide) (by decide)⟩

theorem waitLoop_stuck (n : ℕ) (f : Fifo) (ws : List Fifo)
    (hf : f.size < n) (hws : ∀ g ∈ ws, g.size < n) :
    waitLoop n f ws = none := by
  induction ws generalizing f with
  | nil => simp [waitLoop]; omega
  | cons w ws ih =>
    simp only [waitLoop, if_neg (by omega : ¬ n ≤ f.size)]
    exact ih w (hws w (List.mem_cons_self w ws)) fun g hg => hws g (List.mem_cons_of_mem w hg)

/-- Claim C4 is refuted by the code: the wait loop in `work` re-checks only
the FIFO fill level, and `stop()` never signals `_samp_avail`; after
`stop()` completes, the callback (the only notifier, and it only notifies
together with accepted samples) never runs again, so a consumer already
blocked with fewer than the requested samples never unblocks and never
receives the WORK_DONE / StreamEnded result.  Concretely: with the empty
full-capacity FIFO, a request for 1 sample, and no further wakeups, `work`
never returns (it does not deliver WORK_DONE); `stop` on the open device
only issues `airspy_stop_rx`; and a callback that accepts nothing issues
no notification. -/
theorem claim_C4_blocked_after_stop :
    work true true (emptyFifo fifoCapacity) [] 1 = none ∧
    (stop allOk exampleState).cmds = [DevCmd.stopRx] ∧
    (airspy_rx_callback (emptyFifo fifoCapacity) exampleSamples 0).notified = false := by
  refine ⟨?_, by decide, by decide⟩
  have h := waitLoop_stuck 1 (emptyFifo fifoCapacity) [] (by decide) (by simp)
  simp [work, workRunning, h]

/-- Claim C5: `work` decides streaming from the live device query
(`running = _dev non-null AND airspy_is_streaming(_dev)`); whenever that
query says not streaming, it returns WORK_DONE, leaves the FIFO untouched,
and raises no error — regardless of the request size or pending wakeups. -/
theorem claim_C5_work_done_when_not_streaming (dev devStreaming : Bool)
    (f : Fifo) (wakeups : List Fifo) (n : ℕ)
    (h : workRunning dev devStreaming = false) :
    work dev devStreaming f wakeups n = some (WorkResult.workDone, f) := by
  simp [work, h]

/-- Witness for C5: open device whose live query reports not streaming. -/
theorem claim_C5_witness :
    workRunning true false = false ∧
    work true false exampleFifo [] 3 = some (WorkResult.workDone, exampleFifo) :=
  ⟨by decide, claim_C5_work_done_when_not_streaming true false exampleFifo [] 3 (by decide)⟩

theorem findRate_loop_of_not_mem (l : List (ℚ × ℕ)) (rate : ℚ) (acc : Bool × ℕ)
    (h : rate ∉ l.map Prod.fst) :
    l.foldl (fun acc p => if p.1 = rate then (true, p.2) else acc) acc = acc := by
  induction l generalizing acc with
  | nil => rfl
  | cons p l ih =>
    simp only [List.map_cons, List.mem_cons, not_or] at h
    simp only [List.foldl_cons, if_neg (fun hp : p.1 = rate => h.1 hp.symm)]
    exact ih acc h.2

theorem findRate_loop_of_mem (l : List (ℚ × ℕ)) (rate : ℚ) (acc : Bool × ℕ)
    (h : rate ∈ l.map Prod.fst) :
    (l.foldl (fun acc p => if p.1 = rate then (true, p.2) else acc) acc).1 = true ∧
    (rate, (l.foldl (fun acc p => if p.1 = rate then (true, p.2) else acc) acc).2) ∈ l := by
  induction l generalizing acc with
  | nil => simp at h
  | cons p l ih =>
    by_cases hl : rate ∈ l.map Prod.fst
    · have hr := ih (if p.1 = rate then (true, p.2) else acc) hl
      exact ⟨hr.1, List.mem_cons_of_mem p hr.2⟩
    · have hp : p.1 = rate := by
        simp only [List.map_cons, List.mem_cons] at h
        rcases h with h | h
        · exact h.symm
        · exact absurd h hl
      simp only [List.foldl_cons, if_pos hp, findRate_loop_of_not_mem l rate _ hl]
      refine ⟨by trivial, ?_⟩
      rw [← hp]
      exact List.mem_cons_self p l

/-- Claim C6: on an open device, `set_sample_rate` of a rate not exactly in
the discovered rate list fails with the UnsupportedValue error, issues no
device command, and leaves the whole cached state — in particular the
previously effective sample rate — unchanged; a rate exactly in the list
issues the matching `airspy_set_samplerate` command (the index paired with
that rate in the list) and on acceptance caches the requested rate and
returns it as the effective value. -/
theorem claim_C6_set_sample_rate_exact_match (resp : DevCmd → Bool)
    (st : AirspyState) (rate : ℚ) (hdev : st.dev = true) :
    (rate ∉ st.sample_rates.map Prod.fst →
      set_sample_rate resp st rate =
        ⟨Except.error (AirspyError.unsupportedValue rate), st, []⟩) ∧
    (rate ∈ st.sample_rates.map Prod.fst →
      ∃ idx, (rate, idx) ∈ st.sample_rates ∧
        (set_sample_rate resp st rate).cmds = [DevCmd.setSamplerate idx] ∧
        (resp (DevCmd.setSamplerate idx) = true →
          (set_sample_rate resp st rate).state.sample_rate = rate ∧
          (set_sample_rate resp st rate).result = Except.ok rate) ∧
        (resp (DevCmd.setSamplerate idx) = false →
          (set_sample_rate resp st rate).state = st ∧
          (set_sample_rate resp st rate).result =
            Except.error (AirspyError.deviceRejected "airspy_set_samplerate"))) := by
  constructor
  · intro hmem
    have hfr : findRate st.sample_rates rate = (false, 0) :=
      findRate_loop_of_not_mem st.sample_rates rate (false, 0) hmem
    simp [set_sample_rate, hdev, hfr]
  · intro hmem
    have hfr := findRate_loop_of_mem st.sample_rates rate (false, 0) hmem
    have hfr1 : (findRate st.sample_rates rate).1 = true := hfr.1
    refine ⟨(findRate st.sample_rates rate).2, hfr.2, ?_⟩
    have hunfold : set_sample_rate resp st rate =
        (if resp (DevCmd.setSamplerate (findRate st.sample_rates rate).2) then
          { result := Except.ok rate, state := { st with sample_rate := rate },
            cmds := [DevCmd.setSamplerate (findRate st.sample_rates rate).2] }
        else
          { result := Except.error (AirspyError.deviceRejected "airspy_set_samplerate"),
            state := st,
            cmds := [DevCmd.setSamplerate (findRate st.sample_rates rate).2] }) := by
      simp only [set_sample_rate, hdev, if_true]
      rw [if_neg (by simp [hfr1])]
    by_cases hresp : resp (DevCmd.setSamplerate (findRate st.sample_rates rate).2) = true
    · rw [hunfold, if_pos hresp]
      refine ⟨rfl, fun _ => ⟨rfl, rfl⟩, fun h => ?_⟩
      rw [hresp] at h
      cases h
    · rw [hunfold, if_neg hresp]
      have hfalse : resp (DevCmd.setSamplerate (findRate st.sample_rates rate).2) = false := by
        simpa using hresp
      refine ⟨rfl, fun h => ?_, fun _ => ⟨rfl, rfl⟩⟩
      rw [hfalse] at h
      cases h


/-- Witness for C6: the example device advertises 2.5 MS/s and 10 MS/s;
the theorem is applied at rate 2.5e6, covering both implications. -/
theorem claim_C6_witness :
    exampleState.dev = true ∧
    (((2500000 : ℚ) ∉ exampleState.sample_rates.map Prod.fst →
      set_sample_rate allOk exampleState 2500000 =
        ⟨Except.error (AirspyError.unsupportedValue 2500000), exampleState, []⟩) ∧
    ((2500000 : ℚ) ∈ exampleState.sample_rates.map Prod.fst →
      ∃ idx, ((2500000 : ℚ), idx) ∈ exampleState.sample_rates ∧
        (set_sample_rate allOk exampleState 2500000).cmds = [DevCmd.setSamplerate idx] ∧
        (allOk (DevCmd.setSamplerate idx) = true →
          (set_sample_rate allOk exampleState 2500000).state.sample_rate = 2500000 ∧
          (set_sample_rate allOk exampleState 2500000).result = Except.ok 2500000) ∧
        (allOk (DevCmd.setSamplerate idx) = false →
          (set_sample_rate allOk exampleState 2500000).state = exampleState ∧
          (set_sample_rate allOk exampleState 2500000).result =
            Except.error (AirspyError.deviceRejected "airspy_set_samplerate")))) :=
  ⟨rfl, claim_C6_set_sample_rate_exact_match allOk exampleState 2500000 rfl⟩

/-- Claim C7: on an open device with an accepting device layer, setting the
correction to p ppm and then the center frequency to f issues the hardware
frequency command for f × (1 + p×1e-6) (as cast to the uint64 command
argument) while get_center_freq() keeps reporting the uncorrected f; and
set_freq_corr itself re-issues the frequency command for the last
requested uncorrected frequency with the new correction applied. -/
theorem claim_C7_ppm_correction (resp : DevCmd → Bool) (st : AirspyState)
    (p frq : ℚ) (hdev : st.dev = true) (hresp : ∀ c, resp c = true) :
    (set_freq_corr resp st p).cmds =
      [DevCmd.setFreq (toU64 (APPLY_PPM_CORR st.center_freq p))] ∧
    get_center_freq (set_freq_corr resp st p).state = st.center_freq ∧
    get_freq_corr (set_freq_corr resp st p).state = p ∧
    (set_center_freq resp (set_freq_corr resp st p).state frq).cmds =
      [DevCmd.setFreq (toU64 (APPLY_PPM_CORR frq p))] ∧
    get_center_freq (set_center_freq resp (set_freq_corr resp st p).state frq).state
      = frq := by
  simp [set_freq_corr, set_center_freq, hdev, hresp, get_center_freq, get_freq_corr]

/-- Witness for C7: correction 10 ppm then center frequency 101 MHz on the
example open device. -/
theorem claim_C7_witness :
    exampleState.dev = true ∧
    ((set_freq_corr allOk exampleState 10).cmds =
      [DevCmd.setFreq (toU64 (APPLY_PPM_CORR exampleState.center_freq 10))] ∧
    get_center_freq (set_freq_corr allOk exampleState 10).state = exampleState.center_freq ∧
    get_freq_corr (set_freq_corr allOk exampleState 10).state = 10 ∧
    (set_center_freq allOk (set_freq_corr allOk exampleState 10).state 101000000).cmds =
      [DevCmd.setFreq (toU64 (APPLY_PPM_CORR 101000000 10))] ∧
    get_center_freq
        (set_center_freq allOk (set_freq_corr allOk exampleState 10).state 101000000).state
      = 101000000) :=
  ⟨rfl, claim_C7_ppm_correction allOk exampleState 10 101000000 rfl (fun _ => rfl)⟩

/-- Counterexample to C8 as stated: with manual gains LNA=3, MIX=7, IF=9 on
the example open device, enabling automatic gain and turning it off again
issues exactly the two AGC-off commands followed by reapplication commands
for the LNA and MIX stages only; no `airspy_set_vga_gain` command
re-issues the IF stage, contradicting "all three stages". -/
theorem claim_C8_counterexample :
    (set_gain_mode allOk (set_gain_mode allOk exampleState true).state false).cmds =
      [DevCmd.setLnaAgc 0, DevCmd.setMixerAgc 0,
        DevCmd.setLnaGain 3, DevCmd.setMixerGain 7] ∧
    DevCmd.setVgaGain 9 ∉
      (set_gain_mode allOk (set_gain_mode allOk exampleState true).state false).cmds := by
  have h3 : toU8 (gainRangeClip 0 15 1 (3 : ℚ)) = 3 := by
    norm_num [gainRangeClip, toU8]
    rfl
  have h7 : toU8 (gainRangeClip 0 15 1 (7 : ℚ)) = 7 := by
    norm_num [gainRangeClip, toU8]
    rfl
  have hcmds : (set_gain_mode allOk (set_gain_mode allOk exampleState true).state false).cmds =
      [DevCmd.setLnaAgc 0, DevCmd.setMixerAgc 0,
        DevCmd.setLnaGain 3, DevCmd.setMixerGain 7] := by
    simp [set_gain_mode, set_lna_gain, set_mix_gain, allOk, exampleState, h3, h7]
  refine ⟨hcmds, ?_⟩
  rw [hcmds]
  simp

/-- Claim C8 as amended: after manual per-stage settings, enabling automatic
gain control and turning it off again reapplies the last manually set LNA
and MIX gains (the two AGC-covered stages) to the hardware; the IF (VGA)
stage is not re-issued (no `airspy_set_vga_gain` command of any value
appears), its cached value is untouched, and the mode reads back as
manual. -/
theorem claim_C8_amended_lna_mix_reapplied (resp : DevCmd → Bool)
    (st : AirspyState) (hdev : st.dev = true) (hresp : ∀ c, resp c = true) :
    (set_gain_mode resp (set_gain_mode resp st true).state false).cmds =
      [DevCmd.setLnaAgc 0, DevCmd.setMixerAgc 0,
        DevCmd.setLnaGain (toU8 (gainRangeClip 0 15 1 st.lna_gain)),
        DevCmd.setMixerGain (toU8 (gainRangeClip 0 15 1 st.mix_gain))] ∧
    (∀ v, DevCmd.setVgaGain v ∉
      (set_gain_mode resp (set_gain_mode resp st true).state false).cmds) ∧
    (set_gain_mode resp (set_gain_mode resp st true).state false).state.vga_gain
      = st.vga_gain ∧
    get_gain_mode (set_gain_mode resp (set_gain_mode resp st true).state false).state
      = false := by
  have hcmds : (set_gain_mode resp (set_gain_mode resp st true).state false).cmds =
      [DevCmd.setLnaAgc 0, DevCmd.setMixerAgc 0,
        DevCmd.setLnaGain (toU8 (gainRangeClip 0 15 1 st.lna_gain)),
        DevCmd.setMixerGain (toU8 (gainRangeClip 0 15 1 st.mix_gain))] := by
    simp [set_gain_mode, set_lna_gain, set_mix_gain, hdev, hresp]
  refine ⟨hcmds, ?_, ?_, ?_⟩
  · intro v
    rw [hcmds]
    simp
  · simp [set_gain_mode, set_lna_gain, set_mix_gain, hdev, hresp]
  · simp [set_gain_mode, set_lna_gain, set_mix_gain, get_gain_mode, hdev, hresp]

/-- Witness for C8 amended: the example open device with manual gains
LNA=3, MIX=7, IF=9. -/
theorem claim_C8_witness :
    exampleState.dev = true ∧
    ((set_gain_mode allOk (set_gain_mode allOk exampleState true).state false).cmds =
      [DevCmd.setLnaAgc 0, DevCmd.setMixerAgc 0,
        DevCmd.setLnaGain (toU8 (gainRangeClip 0 15 1 exampleState.lna_gain)),
        DevCmd.setMixerGain (toU8 (gainRangeClip 0 15 1 exampleState.mix_gain))] ∧
    (∀ v, DevCmd.setVgaGain v ∉
      (set_gain_mode allOk (set_gain_mode allOk exampleState true).state false).cmds) ∧
    (set_gain_mode allOk (set_gain_mode allOk exampleState true).state false).state.vga_gain
      = exampleState.vga_gain ∧
    get_gain_mode
        (set_gain_mode allOk (set_gain_mode allOk exampleState true).state false).state
      = false) :=
  ⟨rfl, claim_C8_amended_lna_mix_reapplied allOk exampleState rfl (fun _ => rfl)⟩

/-- A device layer that rejects airspy_start_rx and accepts every other
command. -/
def rejectStart : DevCmd → Bool
  | DevCmd.startRx _ _ => false
  | _ => true

/-- Claim C9: start() on an open session issues `airspy_start_rx` with the
fixed callback function and the context pointer identifying this session;
if the device layer rejects the request it returns false without throwing
(the result is ok false, never an error), and on acceptance it returns
true; the cached state is untouched either way. -/
theorem claim_C9_start_no_throw (resp : DevCmd → Bool) (st : AirspyState)
    (hdev : st.dev = true) :
    (start resp st).cmds = [DevCmd.startRx RxCallbackFn.airspy_rx_cb st.self] ∧
    (resp (DevCmd.startRx RxCallbackFn.airspy_rx_cb st.self) = false →
      (start resp st).result = Except.ok false) ∧
    (resp (DevCmd.startRx RxCallbackFn.airspy_rx_cb st.self) = true →
      (start resp st).result = Except.ok true) ∧
    (start resp st).state = st := by
  by_cases hresp : resp (DevCmd.startRx RxCallbackFn.airspy_rx_cb st.self) = true
  · refine ⟨?_, fun h => ?_, fun _ => ?_, ?_⟩
    · simp [start, hdev, hresp]
    · rw [hresp] at h; cases h
    · simp [start, hdev, hresp]
    · simp [start, hdev, hresp]
  · have hfalse : resp (DevCmd.startRx RxCallbackFn.airspy_rx_cb st.self) = false := by
      simpa using hresp
    refine ⟨?_, fun _ => ?_, fun h => ?_, ?_⟩
    · simp [start, hdev, hfalse]
    · simp [start, hdev, hfalse]
    · rw [hfalse] at h; cases h
    · simp [start, hdev, hfalse]

/-- Witness for C9: a device layer that rejects `airspy_start_rx` but
accepts everything else, against the example open device. -/
theorem claim_C9_witness :
    exampleState.dev = true ∧
    ((start rejectStart exampleState).cmds =
      [DevCmd.startRx RxCallbackFn.airspy_rx_cb exampleState.self] ∧
    (rejectStart (DevCmd.startRx RxCallbackFn.airspy_rx_cb exampleState.self) = false →
      (start rejectStart exampleState).result = Except.ok false) ∧
    (rejectStart (DevCmd.startRx RxCallbackFn.airspy_rx_cb exampleState.self) = true →
      (start rejectStart exampleState).result = Except.ok true) ∧
    (start rejectStart exampleState).state = exampleState) :=
  ⟨rfl, claim_C9_start_no_throw rejectStart exampleState rfl⟩

/-- Claim C10: with a null device handle, set_sample_rate, set_center_freq,
set_gain, set_lna_gain, set_mix_gain and set_if_gain issue no device
command, leave every cached field unchanged, and return the previously
cached value without raising any error. -/
theorem claim_C10_null_dev_frame (resp : DevCmd → Bool) (st : AirspyState)
    (r fq g lg mg ig : ℚ) (hdev : st.dev = false) :
    set_sample_rate resp st r = ⟨Except.ok st.sample_rate, st, []⟩ ∧
    set_center_freq resp st fq = ⟨Except.ok st.center_freq, st, []⟩ ∧
    set_gain resp st g = ⟨Except.ok st.gain, st, []⟩ ∧
    set_lna_gain resp st lg = ⟨Except.ok st.lna_gain, st, []⟩ ∧
    set_mix_gain resp st mg = ⟨Except.ok st.mix_gain, st, []⟩ ∧
    set_if_gain resp st ig = ⟨Except.ok st.vga_gain, st, []⟩ := by
  refine ⟨?_, ?_, ?_, ?_, ?_, ?_⟩ <;>
    simp [set_sample_rate, set_center_freq, set_gain, set_lna_gain, set_mix_gain,
      set_if_gain, hdev]

/-- Witness for C10: the example state with the device handle nulled. -/
theorem claim_C10_witness :
    exampleStateClosed.dev = false ∧
    (set_sample_rate allOk exampleStateClosed 42 =
        ⟨Except.ok exampleStateClosed.sample_rate, exampleStateClosed, []⟩ ∧
      set_center_freq allOk exampleStateClosed 42 =
        ⟨Except.ok exampleStateClosed.center_freq, exampleStateClosed, []⟩ ∧
      set_gain allOk exampleStateClosed 42 =
        ⟨Except.ok exampleStateClosed.gain, exampleStateClosed, []⟩ ∧
      set_lna_gain allOk exampleStateClosed 42 =
        ⟨Except.ok exampleStateClosed.lna_gain, exampleStateClosed, []⟩ ∧
      set_mix_gain allOk exampleStateClosed 42 =
        ⟨Except.ok exampleStateClosed.mix_gain, exampleStateClosed, []⟩ ∧
      set_if_gain allOk exampleStateClosed 42 =
        ⟨Except.ok exampleStateClosed.vga_gain, exampleStateClosed, []⟩) :=
  ⟨rfl, claim_C10_null_dev_frame allOk exampleStateClosed 42 42 42 42 42 42 rfl⟩

end Airspy
